import Mathlib

/-!
Verification of the normalization/resolution layer of `pdbview`
(`src/typeinfo.rs`): conversions from raw debug-info records into the
serializable domain model. Rust machine integers are embedded as `Nat`
with explicit `% 2^w` where overflow matters; fallible conversions
return a `ConvResult` that distinguishes a normal value, a typed error,
and a process abort (Rust `panic!` / `expect` / `unreachable!`).
-/

set_option autoImplicit false

namespace Pdbview

/-- Modelled from the spec: `crate::error::ParsingError`, whose definition
is not under `src/`. The spec's error taxonomy (§7) names three kinds:
`MissingDependency(resource)`, `Unsupported(kind)`, and a wrapped
underlying-reader failure (produced by the `?` operator on `pdb::Error`). -/
inductive ParsingError where
  | missingDependency (resource : String)
  | unsupported (kind : String)
  | reader (message : String)
  deriving DecidableEq, Repr

/-- Outcome of running one conversion: a normal value, a typed error, or a
process abort (a Rust `panic!`, `expect` or `unreachable!`). -/
inductive ConvResult (α : Type) where
  | ok (value : α)
  | err (e : ParsingError)
  | abort (message : String)
  deriving DecidableEq, Repr

/-- Source record `pdb::CompileFlags`: the twelve compilation-switch
booleans destructured by `CompileFlags::from` in `typeinfo.rs:135-148`. -/
structure PdbCompileFlags where
  edit_and_continue : Bool
  no_debug_info : Bool
  link_time_codegen : Bool
  no_data_align : Bool
  managed : Bool
  security_checks : Bool
  hot_patch : Bool
  cvtcil : Bool
  msil_module : Bool
  sdl : Bool
  pgo : Bool
  exp_module : Bool
  deriving DecidableEq, Repr

/-- Output record `CompileFlags` (`typeinfo.rs:105-131`). -/
structure CompileFlags where
  edit_and_continue : Bool
  no_debug_info : Bool
  link_time_codegen : Bool
  no_data_align : Bool
  managed : Bool
  security_checks : Bool
  hot_patch : Bool
  cvtcil : Bool
  msil_module : Bool
  sdl : Bool
  pgo : Bool
  exp_module : Bool
  deriving DecidableEq, Repr

/-- Embeds `impl From<pdb::CompileFlags> for CompileFlags`
(`typeinfo.rs:133-165`): a field-by-field copy of the twelve booleans. -/
def compileFlagsFrom (flags : PdbCompileFlags) : CompileFlags :=
  { edit_and_continue := flags.edit_and_continue
    no_debug_info := flags.no_debug_info
    link_time_codegen := flags.link_time_codegen
    no_data_align := flags.no_data_align
    managed := flags.managed
    security_checks := flags.security_checks
    hot_patch := flags.hot_patch
    cvtcil := flags.cvtcil
    msil_module := flags.msil_module
    sdl := flags.sdl
    pgo := flags.pgo
    exp_module := flags.exp_module }

/-- Source variant `pdb::FileChecksum`: the four checksum kinds with their
payload bytes (each byte a `u8`, embedded as `Nat`). -/
inductive FileChecksum where
  | none
  | md5 (data : List Nat)
  | sha1 (data : List Nat)
  | sha256 (data : List Nat)
  deriving DecidableEq, Repr

/-- Output variant `Checksum` (`typeinfo.rs:200-206`). -/
inductive Checksum where
  | none
  | md5 (data : List Nat)
  | sha1 (data : List Nat)
  | sha256 (data : List Nat)
  deriving DecidableEq, Repr

/-- Embeds `impl From<pdb::FileChecksum> for Checksum`
(`typeinfo.rs:208-217`): re-tags the variant, copying payload bytes
(`data.to_vec()`). -/
def checksumFrom (checksum : FileChecksum) : Checksum :=
  match checksum with
  | FileChecksum.none => Checksum.none
  | FileChecksum.md5 data => Checksum.md5 data
  | FileChecksum.sha1 data => Checksum.sha1 data
  | FileChecksum.sha256 data => Checksum.sha256 data

/-- `pdb::PdbInternalSectionOffset`: a section index (`u16`, the Rust field
is named `section`) and an in-section byte offset (`u32`). -/
structure SectionOffset where
  sectionIdx : Nat
  offset : Nat
  deriving DecidableEq, Repr

/-- `pdb::AddressMap`, an external collaborator: translates a
(section index, section offset) pair to an image-relative address (an
`Rva`, i.e. a `u32`), or reports no mapping. `toRva` embeds
`PdbInternalSectionOffset::to_rva`. -/
structure AddressMap where
  toRva : Nat → Nat → Option Nat

/-- Observable side effects of a symbol conversion, in order of
occurrence: a `warn!` naming the offending symbol, or an address-map
lookup (`to_rva`) of a (section, offset) pair. -/
inductive Effect where
  | warn (symName : String)
  | lookup (sectionIdx offset : Nat)
  deriving DecidableEq, Repr

/-- Source record `pdb::PublicSymbol` as destructured in
`typeinfo.rs:285-292`. -/
structure RawPublicSymbol where
  code : Bool
  function : Bool
  managed : Bool
  msil : Bool
  offset : SectionOffset
  name : String
  deriving DecidableEq, Repr

/-- Output record `PublicSymbol` (`typeinfo.rs:271-279`); `offset` is a
resolved absolute address (`Option<usize>`). -/
structure PublicSymbol where
  name : String
  is_code : Bool
  is_function : Bool
  is_managed : Bool
  is_msil : Bool
  offset : Option Nat
  deriving DecidableEq, Repr

/-- Embeds `impl From<(pdb::PublicSymbol, usize, &pdb::AddressMap)> for
PublicSymbol` (`typeinfo.rs:281-314`), together with its effect trace.
The code warns when `offset.section == 0` (line 294-299) and then
unconditionally performs `offset.to_rva(address_map)` (line 301); on a
successful translation the result is
`u32::from(rva) as usize + base_address` — the `u32` RVA widened to
`usize` and added to the base, embedded as `(rva % 2^32 + base) % 2^64`. -/
def publicSymbolFrom (sym : RawPublicSymbol) (base_address : Nat)
    (address_map : AddressMap) : PublicSymbol × List Effect :=
  let warnTrace : List Effect :=
    if sym.offset.sectionIdx = 0 then [Effect.warn sym.name] else []
  let rva := address_map.toRva sym.offset.sectionIdx sym.offset.offset
  let offset := rva.map fun rva => (rva % 2 ^ 32 + base_address) % 2 ^ 64
  ({ name := sym.name
     is_code := sym.code
     is_function := sym.function
     is_managed := sym.managed
     is_msil := sym.msil
     offset := offset },
   warnTrace ++ [Effect.lookup sym.offset.sectionIdx sym.offset.offset])

/-- A parsed type record (`pdb::TypeData`); only its `Debug` rendering is
observed by this layer (`format!("\x7b:?\x7d", ...)` in `typeinfo.rs:396`). -/
structure TypeData where
  debugRepr : String
  deriving DecidableEq, Repr

/-- A located, lazily-parseable type record (`pdb::Item<TypeIndex>`);
`parsed` embeds `Item::parse`, which may fail with a reader error. -/
structure TypeItem where
  parsed : Except Unit TypeData
  deriving Repr

/-- `pdb::ItemFinder<TypeIndex>`, an external collaborator: resolves a
type index to a located raw record or fails. -/
structure ItemFinder where
  find : Nat → Except Unit TypeItem

/-- Source record `pdb::ProcedureSymbol` as destructured in
`typeinfo.rs:368-381`. The Rust fields `end` and `flags` are kept as
opaque numbers (`endSym`, `flags`); they are destructured but unused. -/
structure RawProcedureSymbol where
  global : Bool
  dpc : Bool
  parent : Option Nat
  endSym : Nat
  next : Option Nat
  len : Nat
  dbg_start_offset : Nat
  dbg_end_offset : Nat
  type_index : Nat
  offset : SectionOffset
  flags : Nat
  name : String
  deriving DecidableEq, Repr

/-- Output record `Procedure` (`typeinfo.rs:334-348`). -/
structure Procedure where
  name : String
  signature : Option String
  offset : Option Nat
  len : Nat
  is_global : Bool
  is_dpc : Bool
  prologue_end : Nat
  epilogue_start : Nat
  deriving DecidableEq, Repr

/-- Embeds `impl From<(pdb::ProcedureSymbol, usize, &pdb::AddressMap,
&pdb::ItemFinder<TypeIndex>)> for Procedure` (`typeinfo.rs:350-409`),
together with its effect trace. Address resolution is identical to
`publicSymbolFrom`. The signature is
`type_finder.find(type_index).ok().map(|ti| format!("\x7b:?\x7d",
ti.parse().expect("failed to parse type info")))`: a failed lookup
degrades to `None`, but a found record that fails to parse panics
(an abort). -/
def procedureFrom (sym : RawProcedureSymbol) (base_address : Nat)
    (address_map : AddressMap) (type_finder : ItemFinder) :
    ConvResult Procedure × List Effect :=
  let warnTrace : List Effect :=
    if sym.offset.sectionIdx = 0 then [Effect.warn sym.name] else []
  let trace := warnTrace ++ [Effect.lookup sym.offset.sectionIdx sym.offset.offset]
  let offset := (address_map.toRva sym.offset.sectionIdx sym.offset.offset).map
    fun rva => (rva % 2 ^ 32 + base_address) % 2 ^ 64
  match type_finder.find sym.type_index with
  | Except.error _ =>
    (ConvResult.ok
      { name := sym.name
        signature := Option.none
        offset := offset
        len := sym.len
        is_global := sym.global
        is_dpc := sym.dpc
        prologue_end := sym.dbg_start_offset
        epilogue_start := sym.dbg_end_offset },
     trace)
  | Except.ok item =>
    match item.parsed with
    | Except.error _ => (ConvResult.abort "failed to parse type info", trace)
    | Except.ok typeData =>
      (ConvResult.ok
        { name := sym.name
          signature := some typeData.debugRepr
          offset := offset
          len := sym.len
          is_global := sym.global
          is_dpc := sym.dpc
          prologue_end := sym.dbg_start_offset
          epilogue_start := sym.dbg_end_offset },
       trace)

/-- A parsed id record (`pdb::IdData`): either a build-info id record
carrying the argument id indices, or some other id kind. -/
inductive IdData where
  | buildInfoId (arguments : List Nat)
  | otherKind
  deriving DecidableEq, Repr

/-- A located, lazily-parseable id record (`pdb::Item<IdIndex>`);
`parsed` embeds `Item::parse`. -/
structure IdItem where
  parsed : Except Unit IdData
  deriving Repr

/-- `pdb::IdFinder`, an external collaborator: resolves an id index to a
located raw id record or fails. -/
structure IdFinder where
  find : Nat → Except Unit IdItem

/-- Source record `pdb::BuildInfoSymbol`: carries the id index of the
build-info id record. -/
structure RawBuildInfoSymbol where
  id : Nat
  deriving DecidableEq, Repr

/-- Output record `BuildInfo` (`typeinfo.rs:42-45`). -/
structure BuildInfo where
  arguments : List String
  deriving DecidableEq, Repr

/-- Embeds the collection loop in `typeinfo.rs:61`:
`build_info_id.arguments.iter().map(|id| finder.find(*id).expect("failed
to parse ID")).collect()` — each failed `find` panics via `expect`. -/
def findArgumentIds (finder : IdFinder) : List Nat → ConvResult (List IdItem)
  | [] => ConvResult.ok []
  | id :: rest =>
    match finder.find id with
    | Except.error _ => ConvResult.abort "failed to parse ID"
    | Except.ok item =>
      match findArgumentIds finder rest with
      | ConvResult.ok items => ConvResult.ok (item :: items)
      | other => other

/-- Embeds `impl TryFrom<(&pdb::BuildInfoSymbol, Option<&pdb::IdFinder>)>
for BuildInfo` (`typeinfo.rs:47-70`). With no finder it returns
`MissingDependency("IdFinder")`. With a finder, `finder.find(symbol.id)?`
propagates a lookup failure as a typed reader error, `.parse().expect(...)`
panics if the found record does not parse, and on the `BuildInfo` id
variant the code collects the argument id records and then executes
`panic!("\x7b:?\x7d", argument_ids)` — it aborts instead of returning the
arguments (the Rust panic message is the debug rendering of the collected
ids). Any other id variant hits `unreachable!()`. -/
def buildInfoTryFrom (symbol : RawBuildInfoSymbol) (finder : Option IdFinder) :
    ConvResult BuildInfo :=
  match finder with
  | Option.none => ConvResult.err (ParsingError.missingDependency "IdFinder")
  | some finder =>
    match finder.find symbol.id with
    | Except.error _ => ConvResult.err (ParsingError.reader "id lookup failed")
    | Except.ok item =>
      match item.parsed with
      | Except.error _ => ConvResult.abort "failed to parse build info"
      | Except.ok (IdData.buildInfoId argumentIds) =>
        (match findArgumentIds finder argumentIds with
         | ConvResult.ok _items => ConvResult.abort "panicked with collected argument ids"
         | ConvResult.err e => ConvResult.err e
         | ConvResult.abort m => ConvResult.abort m)
      | Except.ok IdData.otherKind => ConvResult.abort "unreachable"

/-- `pdb::StringTable`, an external collaborator: resolves a string offset
to text or fails (`to_string_lossy` returning `Err`). -/
structure StringTable where
  resolve : Nat → Option String

/-- One file entry yielded by a module's line-number program
(`pdb::FileInfo` of the line program): a string-table offset for the name
and a checksum. -/
structure RawFileEntry where
  nameOffset : Nat
  checksum : FileChecksum
  deriving DecidableEq, Repr

/-- A module's line-number program (`pdb::LineProgram`). Its `files()`
fallible iterator is embedded as a list whose elements are either a
yielded file entry or an iteration error at that position (the iterator
stops at the first error). -/
structure LineProgram where
  files : List (Except Unit RawFileEntry)

/-- Per-module info block (`pdb::ModuleInfo`); `lineProgram` embeds
`ModuleInfo::line_program`, which may fail. -/
structure ModuleInfo where
  lineProgram : Except Unit LineProgram

/-- Module descriptor (`pdb::Module`): name and object file name. -/
structure RawModule where
  moduleName : String
  objectFileName : String
  deriving DecidableEq, Repr

/-- Output record `FileInfo` (`typeinfo.rs:219-223`). -/
structure FileInfo where
  name : String
  checksum : Checksum
  deriving DecidableEq, Repr

/-- Output record `DebugModule` (`typeinfo.rs:193-198`). -/
structure DebugModule where
  name : String
  object_file_name : String
  source_files : Option (List FileInfo)
  deriving DecidableEq, Repr

/-- Embeds the closure-and-collect in `typeinfo.rs:244-258`: walk the
line program's fallible file iterator in order; an iterator error makes
`collect` return `Err` (so the caller's `.ok()` yields `None`); for a
yielded entry, `f.name.to_string_lossy(string_table).expect("failed to
convert string")` panics when the string table cannot resolve the name
offset, otherwise a `FileInfo` is produced. -/
def collectFileInfos (string_table : StringTable) :
    List (Except Unit RawFileEntry) → ConvResult (Except Unit (List FileInfo))
  | [] => ConvResult.ok (Except.ok [])
  | Except.error e :: _ => ConvResult.ok (Except.error e)
  | Except.ok f :: rest =>
    match string_table.resolve f.nameOffset with
    | Option.none => ConvResult.abort "failed to convert string"
    | some file_name =>
      match collectFileInfos string_table rest with
      | ConvResult.ok (Except.ok infos) =>
        ConvResult.ok (Except.ok ({ name := file_name, checksum := checksumFrom f.checksum } :: infos))
      | other => other

/-- Embeds `impl From<(&pdb::Module, Option<&pdb::ModuleInfo>,
&pdb::StringTable)> for DebugModule` (`typeinfo.rs:225-269`):
`source_files` is `info.map(|info| info.line_program().ok().and_then(|prog|
prog.files().map(...).collect().ok())).flatten()`, so an absent info block
or a failed `line_program()` or a failed `collect` yields `None`, while a
string-table failure inside the closure panics (an abort). -/
def debugModuleFrom (module : RawModule) (info : Option ModuleInfo)
    (string_table : StringTable) : ConvResult DebugModule :=
  let sourceFiles : ConvResult (Option (List FileInfo)) :=
    match info with
    | Option.none => ConvResult.ok Option.none
    | some info =>
      match info.lineProgram with
      | Except.error _ => ConvResult.ok Option.none
      | Except.ok prog =>
        match collectFileInfos string_table prog.files with
        | ConvResult.ok (Except.ok infos) => ConvResult.ok (some infos)
        | ConvResult.ok (Except.error _) => ConvResult.ok Option.none
        | ConvResult.err e => ConvResult.err e
        | ConvResult.abort m => ConvResult.abort m
  match sourceFiles with
  | ConvResult.ok source_files =>
    ConvResult.ok
      { name := module.moduleName
        object_file_name := module.objectFileName
        source_files := source_files }
  | ConvResult.err e => ConvResult.err e
  | ConvResult.abort m => ConvResult.abort m

/-! ## Helper lemmas -/

theorem procedureFrom_ok_offset (sym : RawProcedureSymbol) (base : Nat)
    (m : AddressMap) (tf : ItemFinder) (p : Procedure)
    (h : (procedureFrom sym base m tf).1 = ConvResult.ok p) :
    p.offset = (m.toRva sym.offset.sectionIdx sym.offset.offset).map
      (fun rva => (rva % 2 ^ 32 + base) % 2 ^ 64) := by
  rcases hfind : tf.find sym.type_index with e | item
  · simp only [procedureFrom, hfind, ConvResult.ok.injEq] at h
    subst h
    rfl
  · rcases hparse : item.parsed with e | typeData
    · simp only [procedureFrom, hfind, hparse] at h
      exact absurd h (by simp)
    · simp only [procedureFrom, hfind, hparse, ConvResult.ok.injEq] at h
      subst h
      rfl

theorem procedureFrom_trace (sym : RawProcedureSymbol) (base : Nat)
    (m : AddressMap) (tf : ItemFinder) :
    (procedureFrom sym base m tf).2 =
      (if sym.offset.sectionIdx = 0 then [Effect.warn sym.name] else []) ++
        [Effect.lookup sym.offset.sectionIdx sym.offset.offset] := by
  rcases hfind : tf.find sym.type_index with e | item
  · simp only [procedureFrom, hfind]
  · rcases hparse : item.parsed with e | typeData
    · simp only [procedureFrom, hfind, hparse]
    · simp only [procedureFrom, hfind, hparse]

theorem procedureFrom_never_err (sym : RawProcedureSymbol) (base : Nat)
    (m : AddressMap) (tf : ItemFinder) (e : ParsingError) :
    (procedureFrom sym base m tf).1 ≠ ConvResult.err e := by
  rcases hfind : tf.find sym.type_index with e' | item
  · simp only [procedureFrom, hfind]
    exact fun h => by simp at h
  · rcases hparse : item.parsed with e' | typeData
    · simp only [procedureFrom, hfind, hparse]
      exact fun h => by simp at h
    · simp only [procedureFrom, hfind, hparse]
      exact fun h => by simp at h

/-! ## Claims -/

/-- C5: the `CompileFlags` conversion is a bijection on the 12-boolean
flag record: every one of the twelve booleans of the source record is
preserved in the correspondingly named output field (so over all 2^12
combinations no flag is dropped or renamed), and the conversion is
injective and surjective. -/
theorem compileFlags_bijection :
    (∀ f : PdbCompileFlags,
      (compileFlagsFrom f).edit_and_continue = f.edit_and_continue ∧
      (compileFlagsFrom f).no_debug_info = f.no_debug_info ∧
      (compileFlagsFrom f).link_time_codegen = f.link_time_codegen ∧
      (compileFlagsFrom f).no_data_align = f.no_data_align ∧
      (compileFlagsFrom f).managed = f.managed ∧
      (compileFlagsFrom f).security_checks = f.security_checks ∧
      (compileFlagsFrom f).hot_patch = f.hot_patch ∧
      (compileFlagsFrom f).cvtcil = f.cvtcil ∧
      (compileFlagsFrom f).msil_module = f.msil_module ∧
      (compileFlagsFrom f).sdl = f.sdl ∧
      (compileFlagsFrom f).pgo = f.pgo ∧
      (compileFlagsFrom f).exp_module = f.exp_module) ∧
    (∀ a b : PdbCompileFlags, compileFlagsFrom a = compileFlagsFrom b → a = b) ∧
    (∀ c : CompileFlags, ∃ f : PdbCompileFlags, compileFlagsFrom f = c) := by
  refine ⟨fun f => ⟨rfl, rfl, rfl, rfl, rfl, rfl, rfl, rfl, rfl, rfl, rfl, rfl⟩, ?_, ?_⟩
  · intro a b h
    cases a
    cases b
    simpa [compileFlagsFrom, CompileFlags.mk.injEq, PdbCompileFlags.mk.injEq] using h
  · intro c
    cases c
    exact ⟨⟨_, _, _, _, _, _, _, _, _, _, _, _⟩, rfl⟩

/-- Witness for C5: the injectivity hypothesis discharged at a concrete
flag record. -/
theorem compileFlags_bijection_witness :
    compileFlagsFrom
        ⟨true, false, true, false, true, false, true, false, true, false, true, false⟩ =
      compileFlagsFrom
        ⟨true, false, true, false, true, false, true, false, true, false, true, false⟩ ∧
    (⟨true, false, true, false, true, false, true, false, true, false, true, false⟩ :
        PdbCompileFlags) =
      ⟨true, false, true, false, true, false, true, false, true, false, true, false⟩ :=
  ⟨rfl, compileFlags_bijection.2.1 _ _ rfl⟩

/-- C6: the `Checksum` conversion is a total, exhaustive mapping over the
four input variants, carrying the matching variant tag, preserving the
payload bytes, and injective. -/
theorem checksum_exhaustive_injective :
    checksumFrom FileChecksum.none = Checksum.none ∧
    (∀ data, checksumFrom (FileChecksum.md5 data) = Checksum.md5 data) ∧
    (∀ data, checksumFrom (FileChecksum.sha1 data) = Checksum.sha1 data) ∧
    (∀ data, checksumFrom (FileChecksum.sha256 data) = Checksum.sha256 data) ∧
    (∀ a b : FileChecksum, checksumFrom a = checksumFrom b → a = b) := by
  refine ⟨rfl, fun data => rfl, fun data => rfl, fun data => rfl, ?_⟩
  intro a b h
  cases a <;> cases b <;> simp_all [checksumFrom]

/-- Witness for C6: the injectivity hypothesis discharged at a concrete
checksum. -/
theorem checksum_exhaustive_injective_witness :
    checksumFrom (FileChecksum.sha256 [1, 2]) = checksumFrom (FileChecksum.sha256 [1, 2]) ∧
    FileChecksum.sha256 [1, 2] = FileChecksum.sha256 [1, 2] :=
  ⟨rfl, checksum_exhaustive_injective.2.2.2.2 _ _ rfl⟩

/-- C1: for every public symbol and every procedure record whose
(section, offset) pair the address map translates to image-relative
address `R` (a `u32`), and for every base address `B`, the conversion
produces a resolved address equal to `B + R` exactly — no truncation and
no overflow as long as `B + R` fits the `usize` address width. -/
theorem resolved_address_exact :
    (∀ (sym : RawPublicSymbol) (base R : Nat) (m : AddressMap),
      m.toRva sym.offset.sectionIdx sym.offset.offset = some R →
      R < 2 ^ 32 → base + R < 2 ^ 64 →
      (publicSymbolFrom sym base m).1.offset = some (base + R)) ∧
    (∀ (sym : RawProcedureSymbol) (base R : Nat) (m : AddressMap) (tf : ItemFinder)
      (p : Procedure),
      m.toRva sym.offset.sectionIdx sym.offset.offset = some R →
      R < 2 ^ 32 → base + R < 2 ^ 64 →
      (procedureFrom sym base m tf).1 = ConvResult.ok p →
      p.offset = some (base + R)) := by
  have key : ∀ base R : Nat, R < 2 ^ 32 → base + R < 2 ^ 64 →
      (R % 2 ^ 32 + base) % 2 ^ 64 = base + R := by
    intro base R hR hsum
    rw [Nat.mod_eq_of_lt hR, Nat.mod_eq_of_lt (by rw [Nat.add_comm]; exact hsum)]
    exact Nat.add_comm R base
  constructor
  · intro sym base R m hmap hR hsum
    simp only [publicSymbolFrom, hmap, Option.map_some']
    exact congrArg some (key base R hR hsum)
  · intro sym base R m tf p hmap hR hsum hok
    rw [procedureFrom_ok_offset sym base m tf p hok, hmap, Option.map_some']
    exact congrArg some (key base R hR hsum)

/-- Witness for C1 (spec example scenario 2): a public symbol whose pair
maps to RVA `0x20` with base `0x1000` resolves to `0x1020`, and likewise
for a procedure. -/
theorem resolved_address_exact_witness :
    (publicSymbolFrom ⟨false, false, false, false, ⟨1, 2⟩, "a"⟩ 4096
        ⟨fun _ _ => some 32⟩).1.offset = some 4128 ∧
    (Procedure.mk "b" Option.none (some 4128) 0 false false 0 0).offset = some 4128 :=
  ⟨resolved_address_exact.1 _ 4096 32 _ rfl (by norm_num) (by norm_num),
   resolved_address_exact.2
     ⟨false, false, Option.none, 0, Option.none, 0, 0, 0, 3, ⟨1, 2⟩, 0, "b"⟩
     4096 32 ⟨fun _ _ => some 32⟩ ⟨fun _ => Except.error ()⟩ _
     rfl (by norm_num) (by norm_num) rfl⟩

/-- C2 counterexample: with section index 0 the code still performs the
address-map lookup (the trace records it after the warning), so when the
map happens to translate section 0 the resolved address is `some`, not
`none`; and a procedure record with section index 0 whose found type
record fails to parse makes the conversion abort. This falsifies, at a
concrete input, the claim's "produces None", "attempts no address-map
lookup", and "never aborts" parts. -/
theorem section0_claim_counterexample :
    (publicSymbolFrom ⟨true, true, false, false, ⟨0, 0⟩, "s"⟩ 0
        ⟨fun _ _ => some 5⟩).1.offset = some 5 ∧
    (publicSymbolFrom ⟨true, true, false, false, ⟨0, 0⟩, "s"⟩ 0
        ⟨fun _ _ => some 5⟩).2 = [Effect.warn "s", Effect.lookup 0 0] ∧
    (procedureFrom ⟨false, false, Option.none, 0, Option.none, 0, 0, 0, 7, ⟨0, 0⟩, 0, "p"⟩ 0
        ⟨fun _ _ => some 5⟩ ⟨fun _ => Except.ok ⟨Except.error ()⟩⟩).1 =
      ConvResult.abort "failed to parse type info" :=
  ⟨rfl, rfl, rfl⟩

/-- C2 amended: for every public symbol and procedure record with section
index 0, exactly one warning referencing that symbol is emitted, but the
address-map lookup is still attempted (it follows the warning in the
trace); the resolved address is the map's translation of (0, offset) —
absent exactly when the map reports no mapping; the public-symbol
conversion never aborts, and the procedure conversion never returns a
typed error (it aborts only when a found type record fails to parse). -/
theorem section0_amended :
    (∀ (sym : RawPublicSymbol) (base : Nat) (m : AddressMap),
      sym.offset.sectionIdx = 0 →
      (publicSymbolFrom sym base m).2 =
        [Effect.warn sym.name, Effect.lookup 0 sym.offset.offset] ∧
      (publicSymbolFrom sym base m).1.offset =
        (m.toRva 0 sym.offset.offset).map fun rva => (rva % 2 ^ 32 + base) % 2 ^ 64) ∧
    (∀ (sym : RawProcedureSymbol) (base : Nat) (m : AddressMap) (tf : ItemFinder),
      sym.offset.sectionIdx = 0 →
      (procedureFrom sym base m tf).2 =
        [Effect.warn sym.name, Effect.lookup 0 sym.offset.offset] ∧
      (∀ e, (procedureFrom sym base m tf).1 ≠ ConvResult.err e) ∧
      (∀ p, (procedureFrom sym base m tf).1 = ConvResult.ok p →
        p.offset =
          (m.toRva 0 sym.offset.offset).map fun rva => (rva % 2 ^ 32 + base) % 2 ^ 64)) := by
  constructor
  · intro sym base m h0
    constructor
    · simp [publicSymbolFrom, h0]
    · simp [publicSymbolFrom, h0]
  · intro sym base m tf h0
    refine ⟨?_, fun e => procedureFrom_never_err sym base m tf e, ?_⟩
    · rw [procedureFrom_trace, h0]
      simp
    · intro p hp
      rw [procedureFrom_ok_offset sym base m tf p hp, h0]

/-- Witness for C2 amended: the section-index-0 hypothesis discharged at
concrete records. -/
theorem section0_amended_witness :
    ((publicSymbolFrom ⟨false, false, false, false, ⟨0, 3⟩, "w"⟩ 1
        ⟨fun _ _ => Option.none⟩).2 = [Effect.warn "w", Effect.lookup 0 3] ∧
      (publicSymbolFrom ⟨false, false, false, false, ⟨0, 3⟩, "w"⟩ 1
        ⟨fun _ _ => Option.none⟩).1.offset =
        (Option.none.map fun rva => (rva % 2 ^ 32 + 1) % 2 ^ 64)) ∧
    ((procedureFrom ⟨false, false, Option.none, 0, Option.none, 0, 0, 0, 7, ⟨0, 3⟩, 0, "q"⟩ 1
        ⟨fun _ _ => Option.none⟩ ⟨fun _ => Except.error ()⟩).2 =
        [Effect.warn "q", Effect.lookup 0 3] ∧
      (∀ e, (procedureFrom ⟨false, false, Option.none, 0, Option.none, 0, 0, 0, 7, ⟨0, 3⟩, 0, "q"⟩
        1 ⟨fun _ _ => Option.none⟩ ⟨fun _ => Except.error ()⟩).1 ≠ ConvResult.err e) ∧
      (∀ p, (procedureFrom ⟨false, false, Option.none, 0, Option.none, 0, 0, 0, 7, ⟨0, 3⟩, 0, "q"⟩
          1 ⟨fun _ _ => Option.none⟩ ⟨fun _ => Except.error ()⟩).1 = ConvResult.ok p →
        p.offset = (Option.none.map fun rva => (rva % 2 ^ 32 + 1) % 2 ^ 64))) :=
  ⟨section0_amended.1 ⟨false, false, false, false, ⟨0, 3⟩, "w"⟩ 1 ⟨fun _ _ => Option.none⟩ rfl,
   section0_amended.2 ⟨false, false, Option.none, 0, Option.none, 0, 0, 0, 7, ⟨0, 3⟩, 0, "q"⟩ 1
     ⟨fun _ _ => Option.none⟩ ⟨fun _ => Except.error ()⟩ rfl⟩

/-- C4: for every build-info symbol, the conversion invoked with no
id-resolution handle returns the typed failure
`MissingDependency("IdFinder")` — a returned error, not an abort. -/
theorem buildInfo_missing_finder (symbol : RawBuildInfoSymbol) :
    buildInfoTryFrom symbol Option.none =
      ConvResult.err (ParsingError.missingDependency "IdFinder") := rfl

/-- C3 (code bug): on a fully valid input — a finder that resolves the
symbol's id to a build-info id record with two argument ids, both of
which resolve — the conversion aborts the process (the Rust
`panic!("\x7b:?\x7d", argument_ids)`) instead of returning the two
resolved argument strings. -/
theorem buildInfo_aborts_on_valid_input :
    buildInfoTryFrom ⟨7⟩
      (some ⟨fun id =>
        if id = 7 then Except.ok ⟨Except.ok (IdData.buildInfoId [1, 2])⟩
        else Except.ok ⟨Except.ok IdData.otherKind⟩⟩) =
      ConvResult.abort "panicked with collected argument ids" := rfl

/-- C9: for every procedure record, if looking up the procedure's type
index in the type table fails, the conversion still returns a complete
`Procedure` value whose `signature` is `None`; the failed lookup is not a
hard failure and not an abort. -/
theorem procedure_signature_none_on_lookup_failure
    (sym : RawProcedureSymbol) (base : Nat) (m : AddressMap) (tf : ItemFinder)
    (h : tf.find sym.type_index = Except.error ()) :
    (procedureFrom sym base m tf).1 =
      ConvResult.ok
        { name := sym.name
          signature := Option.none
          offset := (m.toRva sym.offset.sectionIdx sym.offset.offset).map
            fun rva => (rva % 2 ^ 32 + base) % 2 ^ 64
          len := sym.len
          is_global := sym.global
          is_dpc := sym.dpc
          prologue_end := sym.dbg_start_offset
          epilogue_start := sym.dbg_end_offset } := by
  simp only [procedureFrom, h]

/-- Witness for C9: the failed-lookup hypothesis discharged at a concrete
procedure record. -/
theorem procedure_signature_none_witness :
    (procedureFrom ⟨true, false, Option.none, 0, Option.none, 4, 1, 2, 9, ⟨2, 8⟩, 0, "f"⟩ 0
        ⟨fun _ _ => Option.none⟩ ⟨fun _ => Except.error ()⟩).1 =
      ConvResult.ok
        { name := "f", signature := Option.none, offset := Option.none, len := 4,
          is_global := true, is_dpc := false, prologue_end := 1, epilogue_start := 2 } :=
  procedure_signature_none_on_lookup_failure _ 0 _ _ rfl

theorem collectFileInfos_all_ok (st : StringTable) (entries : List RawFileEntry)
    (names : RawFileEntry → String)
    (h : ∀ f ∈ entries, st.resolve f.nameOffset = some (names f)) :
    collectFileInfos st (entries.map Except.ok) =
      ConvResult.ok (Except.ok (entries.map fun f =>
        { name := names f, checksum := checksumFrom f.checksum })) := by
  induction entries with
  | nil => rfl
  | cons f rest ih =>
    have hf : st.resolve f.nameOffset = some (names f) := h f (by simp)
    have hrest : ∀ g ∈ rest, st.resolve g.nameOffset = some (names g) :=
      fun g hg => h g (by simp [hg])
    simp only [List.map_cons, collectFileInfos, hf, ih hrest]

/-- C7: module conversion — with no per-module info block,
`source_files` is `None`; with an info block whose line-number program
fails, also `None`; with a line program whose file iterator errors,
also `None`; with `M` valid file entries whose names all resolve,
`source_files` holds exactly the `M` `FileInfo` entries in source order,
each pairing the resolved name with its classified checksum. -/
theorem debugModule_source_files :
    (∀ (module : RawModule) (st : StringTable),
      debugModuleFrom module Option.none st =
        ConvResult.ok
          { name := module.moduleName, object_file_name := module.objectFileName,
            source_files := Option.none }) ∧
    (∀ (module : RawModule) (info : ModuleInfo) (st : StringTable),
      info.lineProgram = Except.error () →
      debugModuleFrom module (some info) st =
        ConvResult.ok
          { name := module.moduleName, object_file_name := module.objectFileName,
            source_files := Option.none }) ∧
    (∀ (module : RawModule) (st : StringTable) (rest : List (Except Unit RawFileEntry)),
      debugModuleFrom module (some ⟨Except.ok ⟨Except.error () :: rest⟩⟩) st =
        ConvResult.ok
          { name := module.moduleName, object_file_name := module.objectFileName,
            source_files := Option.none }) ∧
    (∀ (module : RawModule) (st : StringTable) (entries : List RawFileEntry)
      (names : RawFileEntry → String),
      (∀ f ∈ entries, st.resolve f.nameOffset = some (names f)) →
      debugModuleFrom module (some ⟨Except.ok ⟨entries.map Except.ok⟩⟩) st =
        ConvResult.ok
          { name := module.moduleName, object_file_name := module.objectFileName,
            source_files := some (entries.map fun f =>
              { name := names f, checksum := checksumFrom f.checksum }) }) := by
  refine ⟨fun module st => rfl, ?_, fun module st rest => rfl, ?_⟩
  · intro module info st h
    simp only [debugModuleFrom, h]
  · intro module st entries names h
    simp only [debugModuleFrom, collectFileInfos_all_ok st entries names h]

/-- Witness for C7: all four cases discharged at concrete inputs, with a
one-entry file list for the final case. -/
theorem debugModule_source_files_witness :
    debugModuleFrom ⟨"m", "m.obj"⟩ Option.none ⟨fun _ => Option.none⟩ =
      ConvResult.ok { name := "m", object_file_name := "m.obj", source_files := Option.none } ∧
    debugModuleFrom ⟨"m", "m.obj"⟩ (some ⟨Except.error ()⟩) ⟨fun _ => Option.none⟩ =
      ConvResult.ok { name := "m", object_file_name := "m.obj", source_files := Option.none } ∧
    debugModuleFrom ⟨"m", "m.obj"⟩ (some ⟨Except.ok ⟨[Except.error ()]⟩⟩) ⟨fun _ => Option.none⟩ =
      ConvResult.ok { name := "m", object_file_name := "m.obj", source_files := Option.none } ∧
    debugModuleFrom ⟨"m", "m.obj"⟩
        (some ⟨Except.ok ⟨[Except.ok ⟨1, FileChecksum.md5 [170]⟩]⟩⟩)
        ⟨fun off => if off = 1 then some "a.c" else Option.none⟩ =
      ConvResult.ok
        { name := "m", object_file_name := "m.obj",
          source_files := some [{ name := "a.c", checksum := Checksum.md5 [170] }] } :=
  ⟨debugModule_source_files.1 _ _,
   debugModule_source_files.2.1 _ ⟨Except.error ()⟩ _ rfl,
   debugModule_source_files.2.2.1 _ _ [],
   debugModule_source_files.2.2.2 _ _ [⟨1, FileChecksum.md5 [170]⟩] (fun _ => "a.c")
     (by
       intro f hf
       simp only [List.mem_singleton] at hf
       subst hf
       rfl)⟩

/-- C10: a present info block whose line-number program parses but yields
zero file entries produces `source_files = Some []`, distinguishing an
empty source-file list from an absent one. -/
theorem debugModule_empty_file_list (module : RawModule) (st : StringTable) :
    debugModuleFrom module (some ⟨Except.ok ⟨[]⟩⟩) st =
      ConvResult.ok
        { name := module.moduleName, object_file_name := module.objectFileName,
          source_files := some [] } := rfl

/-- C8 (code bug): when the string table cannot resolve a file-name
offset, the module conversion aborts the process (the Rust
`.expect("failed to convert string")`) instead of propagating a typed
error to the caller. -/
theorem debugModule_aborts_on_string_failure :
    debugModuleFrom ⟨"m", "m.obj"⟩
        (some ⟨Except.ok ⟨[Except.ok ⟨99, FileChecksum.none⟩]⟩⟩) ⟨fun _ => Option.none⟩ =
      ConvResult.abort "failed to convert string" := rfl

end Pdbview
